import Mathlib

/-! Shallow embedding of the bioeq_ai backend (sample-size calculator,
parsing module, design module, regulatory module) and verification of
its specification. -/

/-- Model of Python `str.lower` for one character, covering the ASCII and
Cyrillic letters that occur in this program. -/
def pyLowerChar (c : Char) : Char :=
  if 65 ≤ c.toNat ∧ c.toNat ≤ 90 then Char.ofNat (c.toNat + 32)
  else if 1040 ≤ c.toNat ∧ c.toNat ≤ 1071 then Char.ofNat (c.toNat + 32)
  else if c.toNat = 1025 then Char.ofNat 1105
  else c

/-- Model of Python `str.lower` on strings. -/
def pyLowerStr (s : String) : String :=
  String.mk (s.toList.map pyLowerChar)

/-- Whether the first list occurs as a contiguous sublist of the second. -/
def listInfix (needle : List Char) : List Char → Bool
  | [] => needle.isEmpty
  | h :: t => needle.isPrefixOf (h :: t) || listInfix needle t

/-- Model of the Python substring test `needle in haystack`. -/
def pyContains (haystack needle : String) : Bool :=
  listInfix needle.toList haystack.toList

example : pyLowerStr "Параллельный" = "параллельный" := by decide
example : pyContains (pyLowerStr "Параллельный") "параллел" = true := by decide
example : pyContains (pyLowerStr "2x2 Crossover") "crossover" = true := by decide
example : pyContains "abc" "ac" = false := by decide

/-- A Python float, idealized: finite values are exact rationals, plus the
special values `inf`, `-inf` and `nan`. -/
inductive PyFloat
  | finite (q : ℚ)
  | inf
  | neginf
  | nan
deriving DecidableEq, Repr

/-- Numeric value of a list of decimal digit characters. -/
def digitsVal (ds : List Char) : ℕ :=
  ds.foldl (fun a c => 10 * a + (c.toNat - 48)) 0

/-- Parse the exponent digits of a float literal (after an optional sign). -/
def parseExpDigits (m : ℚ) (neg : Bool) (cs : List Char) : Option ℚ :=
  if cs.isEmpty then none
  else if cs.all (fun c => c.isDigit) then
    some (if neg then m / 10 ^ digitsVal cs else m * 10 ^ digitsVal cs)
  else none

/-- Parse the exponent part of a float literal (an optional sign, then digits). -/
def parseExpTail (m : ℚ) : List Char → Option ℚ
  | '+' :: r => parseExpDigits m false r
  | '-' :: r => parseExpDigits m true r
  | r => parseExpDigits m false r

/-- Parse an unsigned decimal float literal: `digits [. digits] [e [sign] digits]`,
with at least one digit in the mantissa (input already lower-cased). -/
def parseDecimal (cs : List Char) : Option ℚ :=
  let ip := (cs.span (fun c => c.isDigit)).1
  let rest := (cs.span (fun c => c.isDigit)).2
  match rest with
  | [] => if ip.isEmpty then none else some (digitsVal ip)
  | '.' :: r2 =>
    let fp := (r2.span (fun c => c.isDigit)).1
    let r3 := (r2.span (fun c => c.isDigit)).2
    if ip.isEmpty && fp.isEmpty then none else
    let m : ℚ := digitsVal ip + (digitsVal fp : ℚ) / 10 ^ fp.length
    match r3 with
    | [] => some m
    | 'e' :: r4 => parseExpTail m r4
    | _ => none
  | 'e' :: r2 => if ip.isEmpty then none else parseExpTail (digitsVal ip) r2
  | _ => none

/-- Python whitespace characters recognised by `str.strip`. -/
def pySpace (c : Char) : Bool :=
  c = ' ' || c = '\t' || c = '\n' || c = '\r' || c.toNat = 11 || c.toNat = 12

/-- Model of Python `str.strip()` on a character list. -/
def pyStrip (cs : List Char) : List Char :=
  ((cs.dropWhile pySpace).reverse.dropWhile pySpace).reverse

/-- Model of Python `str.strip()` on strings. -/
def pyTrim (s : String) : String :=
  String.mk (pyStrip s.toList)

/-- Model of Python `float(s)` on a string: strip whitespace, optional sign,
then `inf`/`infinity`/`nan` (case-insensitive) or a decimal literal.
`none` models the `ValueError` that Python raises on failure. -/
def float_of_string (s : String) : Option PyFloat :=
  let t := (pyStrip s.toList).map pyLowerChar
  let neg := match t with
    | '-' :: _ => true
    | _ => false
  let u := match t with
    | '+' :: r => r
    | '-' :: r => r
    | r => r
  if u = "inf".toList ∨ u = "infinity".toList then
    some (if neg then PyFloat.neginf else PyFloat.inf)
  else if u = "nan".toList then some PyFloat.nan
  else (parseDecimal u).map (fun q => PyFloat.finite (if neg then -q else q))

example : float_of_string "inf" = some PyFloat.inf := by decide
example : float_of_string " -Infinity " = some PyFloat.neginf := by decide
example : float_of_string "NaN" = some PyFloat.nan := by decide
example : float_of_string "abc" = none := by decide
example : float_of_string "" = none := by decide
example : float_of_string "." = none := by decide
example : float_of_string " 42 " = some (PyFloat.finite 42) := by decide
example : float_of_string "12.5" = some (PyFloat.finite (25 / 2)) := by
  have h : float_of_string "12.5" =
      some (PyFloat.finite (((12 : ℕ) : ℚ) + ((5 : ℕ) : ℚ) / 10 ^ (1 : ℕ))) := rfl
  rw [h]
  norm_num
example : float_of_string "1e3" = some (PyFloat.finite 1000) := by
  have h : float_of_string "1e3" =
      some (PyFloat.finite (((1 : ℕ) : ℚ) * 10 ^ (3 : ℕ))) := rfl
  rw [h]
  norm_num

/-- A Python value as it occurs in the LLM-extracted JSON candidates:
`None`, a bool, an int, a float or a string. -/
inductive PyVal
  | none
  | bool (b : Bool)
  | int (n : ℤ)
  | float (x : PyFloat)
  | str (s : String)
deriving DecidableEq, Repr

/-- Python truthiness of a value (`if v:`). -/
def pyTruthy : PyVal → Bool
  | PyVal.none => false
  | PyVal.bool b => b
  | PyVal.int n => decide (n ≠ 0)
  | PyVal.float (PyFloat.finite q) => decide (q ≠ 0)
  | PyVal.float _ => true
  | PyVal.str s => decide (s ≠ "")

/-- Model of Python `float(v)` on a value: `none` models the
`TypeError`/`ValueError` that `float` raises on non-convertible input. -/
def float_of_val : PyVal → Option PyFloat
  | PyVal.none => Option.none
  | PyVal.bool b => some (PyFloat.finite (if b then 1 else 0))
  | PyVal.int n => some (PyFloat.finite n)
  | PyVal.float x => some x
  | PyVal.str s => float_of_string s

/-- An extracted-parameter candidate as seen by
`ParsingModule._is_valid_extracted_param`: either absent / not a dict, or a
dict with the values of its `found` and `value` keys (a missing key is
`PyVal.none`). -/
inductive ParamCandidate
  | absent
  | dict (found : PyVal) (value : PyVal)
deriving DecidableEq, Repr

/-- Embedding of `ParsingModule._is_valid_extracted_param`
(src/backend/core/parsing_module.py): reject when the candidate is `None` or
not a dict; reject when `found` is falsy; reject when `float(value)` raises;
accept otherwise. -/
def is_valid_extracted_param : ParamCandidate → Bool
  | ParamCandidate.absent => false
  | ParamCandidate.dict found value =>
    if !pyTruthy found then false
    else (float_of_val value).isSome

/-- Whether a Python float is finite (not `inf`, `-inf` or `nan`). -/
def PyFloat.isFinite : PyFloat → Bool
  | PyFloat.finite _ => true
  | _ => false

/-- Validator as the spec describes it: additionally requires the parsed
float to be finite. Stated from the spec's words, for comparison with
`is_valid_extracted_param`. -/
def spec_valid_extracted_param : ParamCandidate → Bool
  | ParamCandidate.absent => false
  | ParamCandidate.dict found value =>
    pyTruthy found &&
      (match float_of_val value with
       | some f => f.isFinite
       | Option.none => false)

/-- Python `>` on floats: any comparison involving `nan` is false. -/
def pyGt : PyFloat → PyFloat → Bool
  | PyFloat.nan, _ => false
  | _, PyFloat.nan => false
  | PyFloat.inf, PyFloat.inf => false
  | PyFloat.inf, _ => true
  | PyFloat.neginf, _ => false
  | PyFloat.finite _, PyFloat.inf => false
  | PyFloat.finite a, PyFloat.finite b => decide (b < a)
  | PyFloat.finite _, PyFloat.neginf => true

/-- Model of Python `max` on a nonempty list of floats: keep the current
maximum, replacing it whenever a later item compares strictly greater. -/
def pyMax (v : PyFloat) (vs : List PyFloat) : PyFloat :=
  vs.foldl (fun m x => if pyGt x m then x else m) v

example : pyMax (PyFloat.finite 3) [PyFloat.finite 7, PyFloat.finite 5] =
    PyFloat.finite 7 := by decide
example : is_valid_extracted_param
    (ParamCandidate.dict (PyVal.bool true) (PyVal.str "35.5")) = true := by decide
example : is_valid_extracted_param
    (ParamCandidate.dict (PyVal.bool true) (PyVal.str "high")) = false := by decide
example : is_valid_extracted_param
    (ParamCandidate.dict (PyVal.bool false) (PyVal.int 3)) = false := by decide
example : is_valid_extracted_param ParamCandidate.absent = false := by decide

/-- `PARAM_NAME_ALIASES` of src/backend/core/parsing_module.py. -/
def PARSING_PARAM_NAME_ALIASES : List (String × String) :=
  [("cmax", "Cmax"), ("auc", "AUC"), ("tmax", "Tmax"),
   ("t1/2", "T1/2"), ("t1_2", "T1/2"), ("half_life", "T1/2"), ("half-life", "T1/2"),
   ("cv_intra", "CV_intra"), ("cvintra", "CV_intra"),
   ("intra_subject_cv", "CV_intra"), ("intrasubject_cv", "CV_intra"),
   ("within_subject_cv", "CV_intra"), ("withinsubject_cv", "CV_intra")]

/-- `PARAM_NAME_ALIASES` of src/backend/core/design_module.py (a smaller
table: no `cmax`, `auc`, `tmax` or `t1/2` entries). -/
def DESIGN_PARAM_NAME_ALIASES : List (String × String) :=
  [("cv_intra", "CV_intra"), ("cvintra", "CV_intra"),
   ("intra_subject_cv", "CV_intra"), ("intrasubject_cv", "CV_intra"),
   ("within_subject_cv", "CV_intra"), ("withinsubject_cv", "CV_intra"),
   ("t1_2", "T1/2"), ("half_life", "T1/2"), ("half-life", "T1/2")]

/-- The key normalization inside `_canonicalize_param_name`:
`key.lower().replace(" ", "_")`. -/
def normalize_key (key : String) : String :=
  String.mk ((key.toList.map pyLowerChar).map (fun c => if c = ' ' then '_' else c))

/-- Embedding of `_canonicalize_param_name` (identical in
src/backend/core/parsing_module.py and src/backend/core/design_module.py up
to the alias table): strip, return the empty string unchanged, lower-case
and replace spaces by underscores, then look up the alias table, falling
back to the stripped original. -/
def canonicalize_param_name (aliases : List (String × String)) (raw_name : String) : String :=
  let key := pyTrim raw_name
  if key = "" then key
  else (aliases.lookup (normalize_key key)).getD key

/-- `ParsingModule._canonicalize_param_name`. -/
def parsing_canonicalize_param_name (raw_name : String) : String :=
  canonicalize_param_name PARSING_PARAM_NAME_ALIASES raw_name

/-- `DesignModule._canonicalize_param_name`. -/
def design_canonicalize_param_name (raw_name : String) : String :=
  canonicalize_param_name DESIGN_PARAM_NAME_ALIASES raw_name

example : parsing_canonicalize_param_name " CV intra " = "CV_intra" := by decide
example : parsing_canonicalize_param_name "half-life" = "T1/2" := by decide
example : design_canonicalize_param_name "cmax" = "cmax" := by decide
example : parsing_canonicalize_param_name "cmax" = "Cmax" := by decide
example : parsing_canonicalize_param_name "unknown name" = "unknown name" := by decide

/-- The four high-weight markers of `ParsingModule._cv_signal_score`. -/
def CV_MARKERS : List String :=
  ["intra-subject", "within-subject", "intrasubject", "withinsubject"]

/-- Embedding of `ParsingModule._cv_signal_score`
(src/backend/core/parsing_module.py): additive keyword score over the
lower-cased concatenation of title and abstract; the marker loop adds 3 for
each marker found. -/
def cv_signal_score (title abstract : String) : ℕ :=
  let text := pyLowerStr (title ++ " " ++ abstract)
  let s0 := 0
  let s1 := if pyContains text "bioequivalence" then s0 + 2 else s0
  let s2 := if pyContains text "crossover" || pyContains text "cross-over" then s1 + 2 else s1
  let s3 := if pyContains text "healthy volunteer" || pyContains text "healthy subjects"
            then s2 + 1 else s2
  let s4 := CV_MARKERS.foldl (fun acc m => if pyContains text m then acc + 3 else acc) s3
  let s5 := if pyContains text "coefficient of variation" then s4 + 2 else s4
  if pyContains text "variability" && !pyContains text "inter-individual" then s5 + 1 else s5

/-- Score as the spec describes it: a single +3 for the whole marker group.
Stated from the spec's words, for comparison with `cv_signal_score`. -/
def spec_cv_signal_score (title abstract : String) : ℕ :=
  let text := pyLowerStr (title ++ " " ++ abstract)
  (if pyContains text "bioequivalence" then 2 else 0)
  + (if pyContains text "crossover" || pyContains text "cross-over" then 2 else 0)
  + (if pyContains text "healthy volunteer" || pyContains text "healthy subjects" then 1 else 0)
  + (if CV_MARKERS.any (fun m => pyContains text m) then 3 else 0)
  + (if pyContains text "coefficient of variation" then 2 else 0)
  + (if pyContains text "variability" && !pyContains text "inter-individual" then 1 else 0)

example : cv_signal_score "Bioequivalence of X" "a crossover study" = 4 := by decide
example : cv_signal_score "intra-subject within-subject" "" = 6 := by decide
example : spec_cv_signal_score "intra-subject within-subject" "" = 3 := by decide

/-- Model of Python `str(v)` on the values stored into the DB `value`
column (numeral rendering idealized: rationals print exactly). -/
def py_str : PyVal → String
  | PyVal.none => "None"
  | PyVal.bool b => if b then "True" else "False"
  | PyVal.int n => toString n
  | PyVal.float (PyFloat.finite q) => toString q
  | PyVal.float PyFloat.inf => "inf"
  | PyVal.float PyFloat.neginf => "-inf"
  | PyVal.float PyFloat.nan => "nan"
  | PyVal.str s => s

/-- A `DBDrugParameter` row (src/backend/models.py) with the fields the
pipeline sets. -/
structure DBDrugParameter where
  project_id : String
  parameter : String
  value : String
  unit : PyVal
  source_pmid : Option String
  source_title : Option String
  is_reliable : Bool
deriving DecidableEq, Repr

/-- One entry of the `aggregated_params` dict built by
`ParsingModule._extract_params_from_article` / `extract_from_pdf`. -/
structure AggregatedEntry where
  value : PyVal
  unit : PyVal
  pmid : Option String
  title : Option String
deriving DecidableEq, Repr

/-- Embedding of Step 4 of `ParsingModule.search_and_extract`
(src/backend/core/parsing_module.py, lines 231-244): for every parameter
name and every aggregated entry (whether from the first PubMed pass or from
the targeted CV_intra enrichment pass, which merges into the same dict
before this loop runs), emit a `DBDrugParameter` row with
`is_reliable=True`. -/
def save_aggregated_params (project_id : String)
    (aggregated : List (String × List AggregatedEntry)) : List DBDrugParameter :=
  aggregated.flatMap (fun pv => pv.2.map (fun e =>
    { project_id := project_id
      parameter := pv.1
      value := py_str e.value
      unit := e.unit
      source_pmid := e.pmid
      source_title := e.title
      is_reliable := true }))

/-- A candidate as seen by `extract_from_pdf`: `found`, `value` and `unit`
keys of the LLM result (a missing key is `PyVal.none`), or absent/not a dict. -/
inductive PdfParamCandidate
  | absent
  | dict (found value unit : PyVal)
deriving DecidableEq, Repr

/-- Embedding of Step 3 of `ParsingModule.extract_from_pdf`
(src/backend/core/parsing_module.py, lines 336-367): skip candidates that
are `None` or whose `found` is falsy, then emit one `DBDrugParameter` row
per kept candidate, with no PMID, the title "Uploaded PDF" and
`is_reliable=True`. -/
def extract_from_pdf_records (project_id : String)
    (params : List (String × PdfParamCandidate)) : List DBDrugParameter :=
  params.filterMap (fun pc =>
    match pc.2 with
    | PdfParamCandidate.absent => Option.none
    | PdfParamCandidate.dict found value unit =>
      if pyTruthy found then
        some { project_id := project_id
               parameter := pc.1
               value := py_str value
               unit := unit
               source_pmid := Option.none
               source_title := some "Uploaded PDF"
               is_reliable := true }
      else Option.none)

/-- The list comprehension `[float(p.value) for p in ...]`: `none` models the
`ValueError` raised by the first value that does not parse. -/
def floats_of : List DBDrugParameter → Option (List PyFloat)
  | [] => some []
  | p :: ps =>
    match float_of_string p.value, floats_of ps with
    | some v, some vs => some (v :: vs)
    | _, _ => Option.none

/-- Embedding of `DesignModule._get_most_conservative_value`
(src/backend/core/design_module.py): filter the rows to those whose
canonical parameter name matches and whose `is_reliable` flag is set, then
convert each kept `value` with `float(...)` inside a list comprehension —
`Except.error ()` models the `ValueError` this raises on a non-parsing
value. On success: `None` for an empty list, otherwise `max` (the code's
CV_intra branch and its fallback branch both take the maximum). -/
def get_most_conservative_value (params : List DBDrugParameter)
    (param_name : String) : Except Unit (Option PyFloat) :=
  let filtered := params.filter
    (fun p => design_canonicalize_param_name p.parameter = param_name && p.is_reliable)
  match floats_of filtered with
  | Option.none => Except.error ()
  | some [] => Except.ok Option.none
  | some (v :: vs) =>
    if param_name = "CV_intra" then Except.ok (some (pyMax v vs))
    else Except.ok (some (pyMax v vs))

/-- Estimator as the spec describes it: values that do not parse are
silently excluded instead of raising. Stated from the spec's words, for
comparison with `get_most_conservative_value`. -/
def spec_most_conservative_value (params : List DBDrugParameter)
    (param_name : String) : Option PyFloat :=
  let filtered := params.filter
    (fun p => design_canonicalize_param_name p.parameter = param_name && p.is_reliable)
  match filtered.filterMap (fun p => float_of_string p.value) with
  | [] => Option.none
  | v :: vs => some (pyMax v vs)

example :
    get_most_conservative_value
      [{ project_id := "p", parameter := "CV_intra", value := "30", unit := PyVal.none,
         source_pmid := Option.none, source_title := Option.none, is_reliable := true },
       { project_id := "p", parameter := "cv intra", value := "55", unit := PyVal.none,
         source_pmid := Option.none, source_title := Option.none, is_reliable := true },
       { project_id := "p", parameter := "CV_intra", value := "99", unit := PyVal.none,
         source_pmid := Option.none, source_title := Option.none, is_reliable := false }]
      "CV_intra" = Except.ok (some (PyFloat.finite 55)) := rfl
example :
    get_most_conservative_value
      [{ project_id := "p", parameter := "CV_intra", value := "high", unit := PyVal.none,
         source_pmid := Option.none, source_title := Option.none, is_reliable := true }]
      "CV_intra" = Except.error () := rfl

/-- First branch test of `calculate_sample_size_for_design`:
`"2x2" in design or "crossover" in design`. -/
def matches_crossover (design : String) : Bool :=
  pyContains design "2x2" || pyContains design "crossover"

/-- Second branch test: `"3-way" in design or ("3" in design and "replicate" in design)`. -/
def matches_3way (design : String) : Bool :=
  pyContains design "3-way" || (pyContains design "3" && pyContains design "replicate")

/-- Third branch test: `"4-way" in design or ("4" in design and "replicate" in design)`. -/
def matches_4way (design : String) : Bool :=
  pyContains design "4-way" || (pyContains design "4" && pyContains design "replicate")

/-- Fourth branch test: `"параллел" in design or "parallel" in design`. -/
def matches_parallel (design : String) : Bool :=
  pyContains design "параллел" || pyContains design "parallel"

/-- The effective within-subject factor chosen by
`BioeEquivalenceCalculator.calculate_sample_size_for_design`
(src/backend/services/calculator.py) from the lower-cased design string. -/
noncomputable def se_factor_of (design_type : String) : ℝ :=
  let design := pyLowerStr design_type
  if matches_crossover design then 1 / 2
  else if matches_3way design then 1 / 3
  else if matches_4way design then 1 / 4
  else if matches_parallel design then 1
  else 1 / 2

/-- Embedding of `BioeEquivalenceCalculator.calculate_sample_size_for_design`
(src/backend/services/calculator.py, lines 69-118). Floats are modeled as
real numbers; `alpha` is accepted and ignored exactly as in the code, and
`z_beta` is 0.84 in both branches of its conditional. -/
noncomputable def calculate_sample_size_for_design (cv_intra : ℝ) (design_type : String)
    (power : ℝ) (_alpha : ℝ) (theta1 theta2 : ℝ) : ℤ × String :=
  let se_factor := se_factor_of design_type
  let cv_decimal := cv_intra / 100
  let var_log := Real.log (cv_decimal ^ 2 + 1)
  let se_sq := var_log * se_factor
  let z_alpha : ℝ := 1.96
  let z_beta : ℝ := if power = 0.80 then 0.84 else 0.84
  let log_theta := Real.log (theta2 / theta1)
  let n_unrounded := 2 * ((z_alpha + z_beta) / log_theta) ^ 2 * se_sq
  let n : ℤ := if se_factor = 1 then ⌈n_unrounded⌉ else ⌈n_unrounded / 2⌉ * 2
  (max n 12, design_type)

/-- Sample size as the spec documents it, as a function of `cv_intra` and
the already-chosen `se_factor`. Stated from the spec's words, for
comparison with `calculate_sample_size_for_design`. -/
noncomputable def spec_sample_size_formula (cv_intra se_factor : ℝ) : ℤ :=
  let var_log := Real.log ((cv_intra / 100) ^ 2 + 1)
  let n_raw := 2 * ((1.96 + 0.84) / Real.log (1.25 / 0.80)) ^ 2 * var_log * se_factor
  max (if se_factor = 1 then ⌈n_raw⌉ else ⌈n_raw / 2⌉ * 2) 12

/-- The CV-based fallback of `BioeEquivalenceCalculator.choose_design_type`. -/
noncomputable def cv_design_branch (cv_intra : ℝ) : String :=
  if cv_intra ≤ 30.0 then "2x2 crossover"
  else if 30.0 < cv_intra ∧ cv_intra ≤ 50.0 then "3-way replicate"
  else "4-way replicate"

/-- Embedding of `BioeEquivalenceCalculator.choose_design_type`
(src/backend/services/calculator.py, lines 120-142). The `float(t_half)`
call never raises here because `t_half` is already numeric when present. -/
noncomputable def choose_design_type (cv_intra : ℝ) (t_half : Option ℝ) : String :=
  match t_half with
  | some t => if 24.0 * 7.0 * 2.0 ≤ t then "Параллельный" else cv_design_branch cv_intra
  | Option.none => cv_design_branch cv_intra

/-- The two failure modes of `calculate_recruitment_sample_size`: a rate
outside [0, 100], or a combined loss reaching 100%. Both are `ValueError`s
in the code, with distinct messages. -/
inductive RecruitmentError
  | invalidRate
  | infeasible
deriving DecidableEq, Repr

/-- Embedding of `BioeEquivalenceCalculator.calculate_recruitment_sample_size`
(src/backend/services/calculator.py, lines 217-253). Rates are percentages
modeled as rationals. -/
def calculate_recruitment_sample_size (sample_size : ℤ)
    (dropout_rate screen_fail_rate : ℚ) : Except RecruitmentError ℤ :=
  if dropout_rate < 0 ∨ 100 < dropout_rate then Except.error RecruitmentError.invalidRate
  else if screen_fail_rate < 0 ∨ 100 < screen_fail_rate then
    Except.error RecruitmentError.invalidRate
  else
    let dropout_decimal := dropout_rate / 100
    let screen_fail_decimal := screen_fail_rate / 100
    let adjustment_factor := (1 - dropout_decimal) * (1 - screen_fail_decimal)
    if adjustment_factor ≤ 0 then Except.error RecruitmentError.infeasible
    else Except.ok ⌈(sample_size : ℚ) / adjustment_factor⌉

/-- The design parameters `RegulatoryModule.check_compliance` reads from a
project, with each key `Option`-valued (`none` models a missing key or a
stored `None`). -/
structure DesignParameters where
  sample_size : Option ℤ
  design_type : Option String
  washout_days : Option ℤ
  cv_intra : Option ℚ
deriving DecidableEq, Repr

/-- The compliance dict built by `RegulatoryModule.check_compliance`
(the `design_summary` entry, a copy of the inputs, is omitted). -/
structure ComplianceResult where
  is_compliant : Bool
  status : String
  critical_issues : List String
  warnings : List String
deriving DecidableEq, Repr

/-- Critical issue text for a too-small sample size. -/
def sample_size_issue (n : ℤ) : String :=
  s!"Sample size ({n}) is below minimum of 12"

/-- Warning text for high intra-individual variability. -/
def high_cv_warning (cv : ℚ) : String :=
  s!"High intra-individual variability ({cv}%). Consider replicate design for more accurate BE assessment."

/-- Warning text for implausibly low variability. -/
def low_cv_warning (cv : ℚ) : String :=
  s!"Very low variability ({cv}%). Verify data source."

/-- Warning text for a 2x2 crossover despite high variability. -/
def design_type_warning : String :=
  "High variability with 2x2 crossover. Consider 2x2x4 or parallel design."

/-- Warning text for a very long washout period. -/
def washout_warning (w : ℤ) : String :=
  s!"Very long washout period ({w} days). Ensure practical feasibility and volunteer retention."

/-- Embedding of the per-design body of `RegulatoryModule.check_compliance`
(src/backend/core/regulatory_module.py, lines 18-104), after the
project-lookup guards. When `sample_size` is absent, `design.get("sample_size", 0)`
is 0 < 12 and the message then evaluates `design["sample_size"]`, raising a
`KeyError` that the surrounding handler converts to an error dict: modeled
as `Except.error`. The `if cv:` / `if washout:` guards are Python
truthiness, so a stored 0 behaves like an absent value. -/
def check_compliance (design : DesignParameters) : Except String ComplianceResult :=
  match design.sample_size with
  | Option.none => Except.error "sample_size"
  | some n =>
    let issues := if n < 12 then [sample_size_issue n] else []
    let cv_warnings :=
      match design.cv_intra with
      | some cv =>
        if cv = 0 then []
        else (if 50 < cv then [high_cv_warning cv] else [])
          ++ (if cv < 5 then [low_cv_warning cv] else [])
      | Option.none => []
    let design_type_warnings :=
      match design.cv_intra with
      | some cv =>
        if cv ≠ 0 ∧ 30 < cv ∧ design.design_type = some "2x2 crossover"
        then [design_type_warning] else []
      | Option.none => []
    let washout_warnings :=
      match design.washout_days with
      | some w => if w = 0 then [] else if 90 < w then [washout_warning w] else []
      | Option.none => []
    let is_compliant := issues.isEmpty
    Except.ok
      { is_compliant := is_compliant
        status := if is_compliant then "APPROVED" else "REJECTED WITH ISSUES"
        critical_issues := issues
        warnings := cv_warnings ++ design_type_warnings ++ washout_warnings }

example :
    (check_compliance
      { sample_size := some 24, design_type := some "2x2 crossover",
        washout_days := Option.none, cv_intra := some 0 }).map ComplianceResult.warnings
      = Except.ok [] := rfl
example :
    (check_compliance
      { sample_size := some 24, design_type := some "2x2 crossover",
        washout_days := Option.none, cv_intra := some 3 }).map ComplianceResult.warnings
      = Except.ok [low_cv_warning 3] := rfl

/-- C7 counterexample: the claim says a candidate whose value parses only to
a non-finite float is rejected, but `float("inf")` succeeds in Python, so
`_is_valid_extracted_param` accepts `{"found": True, "value": "inf"}` while
the spec-described validator rejects it. -/
theorem C7_counterexample :
    is_valid_extracted_param (ParamCandidate.dict (PyVal.bool true) (PyVal.str "inf")) = true
    ∧ float_of_val (PyVal.str "inf") = some PyFloat.inf
    ∧ spec_valid_extracted_param
        (ParamCandidate.dict (PyVal.bool true) (PyVal.str "inf")) = false :=
  ⟨by decide, by decide, by decide⟩

/-- C7 (amended): `_is_valid_extracted_param` returns true exactly when the
candidate is a dict whose `found` is truthy and whose `value` converts with
`float(...)` without raising — finite or not; it returns false when the
candidate is absent/not a dict, `found` is falsy, or `float(value)` raises. -/
theorem C7_validator_accepts_iff_parses :
    ∀ c : ParamCandidate,
      is_valid_extracted_param c = true ↔
        ∃ found value, c = ParamCandidate.dict found value ∧ pyTruthy found = true ∧
          (float_of_val value).isSome = true := by
  intro c
  cases c with
  | absent => simp [is_valid_extracted_param]
  | dict f v =>
    cases hf : pyTruthy f <;>
      simp [is_valid_extracted_param, hf, ParamCandidate.dict.injEq]
    constructor
    · intro h
      exact ⟨f, v, ⟨rfl, rfl⟩, hf, h⟩
    · rintro ⟨f', v', ⟨rfl, rfl⟩, _, h⟩
      exact h

/-- C6 counterexample: on the text "intra-subject within-subject" the code
scores 6 (the marker loop adds 3 per marker found), while the claimed
formula (one +3 for the whole marker group) gives 3. -/
theorem C6_counterexample :
    cv_signal_score "intra-subject within-subject" "" = 6
    ∧ spec_cv_signal_score "intra-subject within-subject" "" = 3 :=
  ⟨by decide, by decide⟩

/-- The marker loop of `_cv_signal_score` adds 3 for each marker the text
contains. -/
theorem foldl_marker_add (text : String) (ms : List String) (s : ℕ) :
    ms.foldl (fun acc m => if pyContains text m then acc + 3 else acc) s
      = s + 3 * ms.countP (fun m => pyContains text m) := by
  induction ms generalizing s with
  | nil => simp
  | cons m ms ih =>
    rw [List.foldl_cons, ih, List.countP_cons]
    cases h : pyContains text m
    · simp [h]
    · simp [h]
      omega

/-- C6 (amended): the relevance score is the sum of the claimed additive
contributions, except that the marker group contributes +3 for each of the
four markers the text contains (3 × the number of markers present), with no
cap on the total. -/
theorem C6_score_additive :
    ∀ title abstract : String,
      cv_signal_score title abstract =
        (if pyContains (pyLowerStr (title ++ " " ++ abstract)) "bioequivalence" then 2 else 0)
        + (if pyContains (pyLowerStr (title ++ " " ++ abstract)) "crossover"
              || pyContains (pyLowerStr (title ++ " " ++ abstract)) "cross-over" then 2 else 0)
        + (if pyContains (pyLowerStr (title ++ " " ++ abstract)) "healthy volunteer"
              || pyContains (pyLowerStr (title ++ " " ++ abstract)) "healthy subjects"
           then 1 else 0)
        + 3 * CV_MARKERS.countP
            (fun m => pyContains (pyLowerStr (title ++ " " ++ abstract)) m)
        + (if pyContains (pyLowerStr (title ++ " " ++ abstract)) "coefficient of variation"
           then 2 else 0)
        + (if pyContains (pyLowerStr (title ++ " " ++ abstract)) "variability"
              && !pyContains (pyLowerStr (title ++ " " ++ abstract)) "inter-individual"
           then 1 else 0) := by
  intro title abstract
  simp only [cv_signal_score]
  rw [foldl_marker_add]
  split_ifs <;> omega

/-- C8: both canonicalizers map every alias of their table to its canonical
form (the listed particulars hold on the parsing-module table, which alone
contains `cmax`/`auc`/`tmax`), are idempotent on canonical forms, return
any unknown name as the stripped original verbatim, and return the empty
string on empty or whitespace-only input. Both are total functions, so
neither can raise. -/
theorem C8_canonicalize_param_name :
    (∀ a c, (a, c) ∈ PARSING_PARAM_NAME_ALIASES → parsing_canonicalize_param_name a = c)
    ∧ (∀ a c, (a, c) ∈ DESIGN_PARAM_NAME_ALIASES → design_canonicalize_param_name a = c)
    ∧ (parsing_canonicalize_param_name "cv_intra" = "CV_intra"
       ∧ parsing_canonicalize_param_name "cvintra" = "CV_intra"
       ∧ parsing_canonicalize_param_name "intra_subject_cv" = "CV_intra"
       ∧ parsing_canonicalize_param_name "within_subject_cv" = "CV_intra"
       ∧ parsing_canonicalize_param_name "half_life" = "T1/2"
       ∧ parsing_canonicalize_param_name "half-life" = "T1/2"
       ∧ parsing_canonicalize_param_name "t1_2" = "T1/2"
       ∧ parsing_canonicalize_param_name "cmax" = "Cmax"
       ∧ parsing_canonicalize_param_name "auc" = "AUC"
       ∧ parsing_canonicalize_param_name "tmax" = "Tmax")
    ∧ (∀ c, c ∈ ["CV_intra", "T1/2", "Cmax", "AUC", "Tmax"] →
        parsing_canonicalize_param_name c = c ∧ design_canonicalize_param_name c = c)
    ∧ (∀ s, PARSING_PARAM_NAME_ALIASES.lookup (normalize_key (pyTrim s)) = Option.none →
        parsing_canonicalize_param_name s = pyTrim s)
    ∧ (∀ s, DESIGN_PARAM_NAME_ALIASES.lookup (normalize_key (pyTrim s)) = Option.none →
        design_canonicalize_param_name s = pyTrim s)
    ∧ (∀ s, pyTrim s = "" →
        parsing_canonicalize_param_name s = "" ∧ design_canonicalize_param_name s = "") := by
  refine ⟨?_, ?_, ?_, ?_, ?_, ?_, ?_⟩
  · intro a c h
    fin_cases h <;> decide
  · intro a c h
    fin_cases h <;> decide
  · exact ⟨by decide, by decide, by decide, by decide, by decide,
      by decide, by decide, by decide, by decide, by decide⟩
  · intro c h
    fin_cases h <;> exact ⟨by decide, by decide⟩
  · intro s h
    simp only [parsing_canonicalize_param_name, canonicalize_param_name]
    split_ifs with hk
    · rw [hk]
    · rw [h]
      rfl
  · intro s h
    simp only [design_canonicalize_param_name, canonicalize_param_name]
    split_ifs with hk
    · rw [hk]
    · rw [h]
      rfl
  · intro s h
    constructor
    · simp [parsing_canonicalize_param_name, canonicalize_param_name, h]
    · simp [design_canonicalize_param_name, canonicalize_param_name, h]

/-- C8 witness: the theorem applied to concrete inputs — a known alias, an
unknown name, and a whitespace-only name. -/
theorem C8_canonicalize_witness :
    parsing_canonicalize_param_name "cmax" = "Cmax"
    ∧ design_canonicalize_param_name " Unknown Param " = pyTrim " Unknown Param "
    ∧ parsing_canonicalize_param_name "   " = "" :=
  ⟨C8_canonicalize_param_name.1 "cmax" "Cmax" (by decide),
   C8_canonicalize_param_name.2.2.2.2.2.1 " Unknown Param " (by decide),
   (C8_canonicalize_param_name.2.2.2.2.2.2 "   " (by decide)).1⟩

/-- C10: every `DBDrugParameter` row built by the PubMed save loop (which
also persists the targeted CV_intra enrichment results, merged into the
same dict) and by the PDF extraction path has `is_reliable = true`, so the
conservative estimator's reliability filter excludes no pipeline-produced
observation. -/
theorem C10_pipeline_reliability :
    (∀ (pid : String) (aggregated : List (String × List AggregatedEntry))
       (row : DBDrugParameter), row ∈ save_aggregated_params pid aggregated →
         row.is_reliable = true)
    ∧ (∀ (pid : String) (params : List (String × PdfParamCandidate))
       (row : DBDrugParameter), row ∈ extract_from_pdf_records pid params →
         row.is_reliable = true) := by
  constructor
  · intro pid aggregated row h
    simp only [save_aggregated_params, List.mem_flatMap, List.mem_map] at h
    obtain ⟨pv, -, e, -, rfl⟩ := h
    rfl
  · intro pid params row h
    simp only [extract_from_pdf_records, List.mem_filterMap] at h
    obtain ⟨⟨name, cand⟩, -, hpc⟩ := h
    cases cand with
    | absent => exact absurd hpc (by simp)
    | dict found value unit =>
      cases hft : pyTruthy found
      · simp [hft] at hpc
      · simp [hft] at hpc
        cases hpc
        rfl

/-- C10 witness: the theorem applied to one concrete row of each pipeline. -/
theorem C10_pipeline_reliability_witness :
    ({ project_id := "p", parameter := "CV_intra", value := "35", unit := PyVal.none,
       source_pmid := some "123", source_title := some "T", is_reliable := true }
      : DBDrugParameter).is_reliable = true
    ∧ ({ project_id := "p", parameter := "Cmax", value := "2", unit := PyVal.none,
         source_pmid := Option.none, source_title := some "Uploaded PDF",
         is_reliable := true } : DBDrugParameter).is_reliable = true :=
  ⟨C10_pipeline_reliability.1 "p"
     [("CV_intra", [{ value := PyVal.str "35", unit := PyVal.none,
                      pmid := some "123", title := some "T" }])] _ (by decide),
   C10_pipeline_reliability.2 "p"
     [("Cmax", PdfParamCandidate.dict (PyVal.bool true) (PyVal.int 2) PyVal.none)] _
     (by decide)⟩

/-- The embedded list comprehension fails exactly when some element fails:
this is how the bare `float(...)` inside `_get_most_conservative_value`
propagates its `ValueError`. -/
theorem floats_of_eq_none_iff (l : List DBDrugParameter) :
    floats_of l = Option.none ↔ ∃ p ∈ l, float_of_string p.value = Option.none := by
  induction l with
  | nil => simp [floats_of]
  | cons a l ih =>
    cases h : float_of_string a.value with
    | none => simp [floats_of, h]
    | some b =>
      cases hl : floats_of l with
      | none => simp [floats_of, h, hl, ← ih]
      | some bs => simp [floats_of, h, hl, ← ih, hl]

/-- C3 counterexample: the claim says a non-parsing value is silently
excluded (so a lone unreliable-to-parse value yields `None`), but the list
comprehension in `_get_most_conservative_value` calls `float(p.value)` with
no `try`/`except`, so it raises (`Except.error`) where the spec-described
estimator returns `None`. -/
theorem C3_counterexample :
    get_most_conservative_value
      [{ project_id := "p", parameter := "CV_intra", value := "not numeric",
         unit := PyVal.none, source_pmid := Option.none, source_title := Option.none,
         is_reliable := true }] "CV_intra"
      = Except.error ()
    ∧ spec_most_conservative_value
      [{ project_id := "p", parameter := "CV_intra", value := "not numeric",
         unit := PyVal.none, source_pmid := Option.none, source_title := Option.none,
         is_reliable := true }] "CV_intra"
      = Option.none :=
  ⟨rfl, rfl⟩

/-- C3 (amended): the estimator filters to rows whose canonical name matches
and whose `is_reliable` flag is set (unreliable rows never influence the
result), raises — rather than silently excluding — when any filtered value
does not parse as a float, returns `None` when the filtered set is empty,
and otherwise returns the Python maximum of the parsed values for every
parameter, CV_intra included. -/
theorem C3_conservative_estimator :
    ∀ (params : List DBDrugParameter) (name : String),
      (get_most_conservative_value params name
         = get_most_conservative_value (params.filter (fun p => p.is_reliable)) name)
      ∧ (get_most_conservative_value params name = Except.error () ↔
          ∃ p ∈ params.filter (fun p =>
              design_canonicalize_param_name p.parameter = name && p.is_reliable),
            float_of_string p.value = Option.none)
      ∧ (params.filter (fun p =>
            design_canonicalize_param_name p.parameter = name && p.is_reliable) = [] →
          get_most_conservative_value params name = Except.ok Option.none)
      ∧ (∀ v vs,
          floats_of (params.filter (fun p =>
              design_canonicalize_param_name p.parameter = name && p.is_reliable))
            = some (v :: vs) →
          get_most_conservative_value params name = Except.ok (some (pyMax v vs))) := by
  intro params name
  refine ⟨?_, ?_, ?_, ?_⟩
  · simp only [get_most_conservative_value]
    rw [List.filter_filter]
    rw [List.filter_congr (q :=
      fun p => (design_canonicalize_param_name p.parameter = name && p.is_reliable)
        && p.is_reliable)
      (fun p _ => by cases hr : p.is_reliable <;> simp [hr])]
  · cases h : floats_of (params.filter (fun p =>
        design_canonicalize_param_name p.parameter = name && p.is_reliable)) with
    | none =>
      simp only [get_most_conservative_value, h]
      exact ⟨fun _ => (floats_of_eq_none_iff _).mp h, fun _ => trivial⟩
    | some vs =>
      have hne : ¬ ∃ p ∈ params.filter (fun p =>
          design_canonicalize_param_name p.parameter = name && p.is_reliable),
          float_of_string p.value = Option.none := by
        intro hex
        rw [(floats_of_eq_none_iff _).mpr hex] at h
        exact Option.noConfusion h
      have hne' : ∀ x ∈ params,
          design_canonicalize_param_name x.parameter = name → x.is_reliable = true →
            ¬ float_of_string x.value = Option.none := by
        simpa [List.mem_filter] using hne
      cases vs with
      | nil =>
        simp only [get_most_conservative_value, h]
        simp
        exact hne'
      | cons v vs =>
        simp only [get_most_conservative_value, h]
        simp
        exact hne'
  · intro hemp
    simp [get_most_conservative_value, hemp, floats_of]
  · intro v vs h
    simp [get_most_conservative_value, h]

/-- C3 witness: the amended theorem applied to a concrete list (one matching
reliable row written as "CV_intra", one as "cv intra", one unreliable row
that is ignored) and to the empty list. -/
theorem C3_conservative_estimator_witness :
    get_most_conservative_value
      [{ project_id := "p", parameter := "CV_intra", value := "30", unit := PyVal.none,
         source_pmid := Option.none, source_title := Option.none, is_reliable := true },
       { project_id := "p", parameter := "cv intra", value := "55", unit := PyVal.none,
         source_pmid := Option.none, source_title := Option.none, is_reliable := true },
       { project_id := "p", parameter := "CV_intra", value := "99", unit := PyVal.none,
         source_pmid := Option.none, source_title := Option.none, is_reliable := false }]
      "CV_intra" = Except.ok (some (pyMax (PyFloat.finite 30) [PyFloat.finite 55]))
    ∧ get_most_conservative_value [] "Tmax" = Except.ok Option.none :=
  ⟨(C3_conservative_estimator _ "CV_intra").2.2.2 (PyFloat.finite 30) [PyFloat.finite 55]
     (by decide),
   (C3_conservative_estimator [] "Tmax").2.2.1 rfl⟩

/-- C4: `calculate_recruitment_sample_size` fails with the invalid-rate
error iff a rate lies outside [0, 100]; with both rates in range it fails
with the infeasible error iff the adjustment factor is ≤ 0; otherwise it
returns the ceiling of `sample_size` over the adjustment factor; and with
both rates 0 it returns `sample_size` unchanged. -/
theorem C4_recruitment_sample_size :
    ∀ (n : ℤ) (d s : ℚ),
      ((calculate_recruitment_sample_size n d s
          = Except.error RecruitmentError.invalidRate)
        ↔ (d < 0 ∨ 100 < d ∨ s < 0 ∨ 100 < s))
      ∧ (0 ≤ d → d ≤ 100 → 0 ≤ s → s ≤ 100 →
          ((calculate_recruitment_sample_size n d s
              = Except.error RecruitmentError.infeasible)
            ↔ (1 - d / 100) * (1 - s / 100) ≤ 0))
      ∧ (0 ≤ d → d ≤ 100 → 0 ≤ s → s ≤ 100 → 0 < (1 - d / 100) * (1 - s / 100) →
          calculate_recruitment_sample_size n d s
            = Except.ok ⌈(n : ℚ) / ((1 - d / 100) * (1 - s / 100))⌉)
      ∧ calculate_recruitment_sample_size n 0 0 = Except.ok n := by
  intro n d s
  refine ⟨?_, ?_, ?_, ?_⟩
  · simp only [calculate_recruitment_sample_size]
    constructor
    · intro h
      by_contra hout
      push_neg at hout
      obtain ⟨h1, h2, h3, h4⟩ := hout
      rw [if_neg (by push_neg; exact ⟨h1, h2⟩), if_neg (by push_neg; exact ⟨h3, h4⟩)] at h
      split_ifs at h
      all_goals simp_all
    · intro h
      split_ifs with h1 h2 h3
      · rfl
      · rfl
      · exact absurd h (by tauto)
      · exact absurd h (by tauto)
  · intro hd0 hd1 hs0 hs1
    simp only [calculate_recruitment_sample_size]
    rw [if_neg (by push_neg; exact ⟨hd0, hd1⟩), if_neg (by push_neg; exact ⟨hs0, hs1⟩)]
    split_ifs with h3 <;> simp [h3]
  · intro hd0 hd1 hs0 hs1 hpos
    simp only [calculate_recruitment_sample_size]
    rw [if_neg (by push_neg; exact ⟨hd0, hd1⟩), if_neg (by push_neg; exact ⟨hs0, hs1⟩),
      if_neg (not_le.mpr hpos)]
  · norm_num [calculate_recruitment_sample_size]

/-- C4 witness: the theorem applied at zero rates, a 100% dropout rate, and
a negative rate. -/
theorem C4_recruitment_witness :
    calculate_recruitment_sample_size 7 0 0 = Except.ok 7
    ∧ calculate_recruitment_sample_size 12 100 0 = Except.error RecruitmentError.infeasible
    ∧ calculate_recruitment_sample_size 12 (-1) 0
        = Except.error RecruitmentError.invalidRate :=
  ⟨(C4_recruitment_sample_size 7 0 0).2.2.2,
   ((C4_recruitment_sample_size 12 100 0).2.1 (by norm_num) (by norm_num)
      (by norm_num) (by norm_num)).mpr (by norm_num),
   ((C4_recruitment_sample_size 12 (-1) 0).1).mpr (by norm_num)⟩

/-- C5 counterexample: the claim says a design with CV_intra present and
below 5 always gets a verify-data-source warning, but `if cv:` is Python
truthiness, so a present CV_intra of 0 — which is below 5 — skips all CV
rules and the warning list stays empty. -/
theorem C5_counterexample :
    (check_compliance
      { sample_size := some 24, design_type := some "2x2 crossover",
        washout_days := Option.none, cv_intra := some 0 }).map ComplianceResult.warnings
      = Except.ok []
    ∧ ((0 : ℚ) < 5) :=
  ⟨rfl, by norm_num⟩

/-- C5 (amended): for a well-typed design with `sample_size` present the
check returns a result dict (never raises); `is_compliant` is true iff the
critical-issue list is empty (warnings never affect it); `sample_size = 10`
always yields non-compliance with a critical issue mentioning the minimum
of 12; an absent CV_intra skips all CV rules, leaving only the possible
washout warning; and a present, nonzero CV_intra below 5 yields the
verify-data-source warning (a stored CV_intra of 0 is falsy in Python and
skips the CV rules, like an absent one). -/
theorem C5_check_compliance :
    ∀ (design : DesignParameters) (n : ℤ),
      design.sample_size = some n →
        ∃ res, check_compliance design = Except.ok res
          ∧ (res.is_compliant = true ↔ res.critical_issues = [])
          ∧ (n = 10 →
              res.is_compliant = false
              ∧ sample_size_issue 10 ∈ res.critical_issues
              ∧ pyContains (sample_size_issue 10) "minimum of 12" = true)
          ∧ (design.cv_intra = Option.none →
              res.warnings =
                (match design.washout_days with
                 | some w => if w = 0 then [] else if 90 < w then [washout_warning w] else []
                 | Option.none => []))
          ∧ (∀ cv : ℚ, design.cv_intra = some cv → cv ≠ 0 → cv < 5 →
              low_cv_warning cv ∈ res.warnings) := by
  intro design n hn
  rcases design with ⟨ss, dt, wd, cv⟩
  simp only at hn
  subst hn
  refine ⟨_, rfl, ?_, ?_, ?_, ?_⟩
  · simp only [check_compliance]
    exact List.isEmpty_iff
  · intro h10
    subst h10
    refine ⟨by simp [check_compliance], ?_, by decide⟩
    simp [check_compliance]
  · intro hcv
    simp only at hcv
    subst hcv
    simp [check_compliance]
  · intro cv' hcv hne hlt
    simp only at hcv
    subst hcv
    have h50 : ¬ (50 : ℚ) < cv' := by linarith
    simp [check_compliance, hne, hlt, h50]

/-- C5 witness: the amended theorem applied to a concrete design with
sample size 10 and CV_intra 3. -/
theorem C5_check_compliance_witness :
    ∃ res, check_compliance
        { sample_size := some 10, design_type := some "2x2 crossover",
          washout_days := Option.none, cv_intra := some 3 } = Except.ok res
      ∧ res.is_compliant = false
      ∧ sample_size_issue 10 ∈ res.critical_issues
      ∧ low_cv_warning 3 ∈ res.warnings := by
  obtain ⟨res, h1, h2, h3, h4, h5⟩ :=
    C5_check_compliance
      { sample_size := some 10, design_type := some "2x2 crossover",
        washout_days := Option.none, cv_intra := some 3 } 10 rfl
  exact ⟨res, h1, (h3 rfl).1, (h3 rfl).2.1, h5 3 rfl (by norm_num) (by norm_num)⟩

/-- C2: `choose_design_type` returns the parallel design whenever a
half-life is present and at least 336 hours, with precedence over the CV
rules; otherwise the CV bands apply: ≤ 30 gives the 2x2 crossover,
(30, 50] the 3-way replicate and > 50 the 4-way replicate — non-overlapping
and exhaustive. -/
theorem C2_choose_design_type :
    ∀ (cv : ℝ) (t_half : Option ℝ),
      (∀ t, t_half = some t → 336 ≤ t → choose_design_type cv t_half = "Параллельный")
      ∧ ((∀ t, t_half = some t → t < 336) →
          (cv ≤ 30 → choose_design_type cv t_half = "2x2 crossover")
          ∧ (30 < cv → cv ≤ 50 → choose_design_type cv t_half = "3-way replicate")
          ∧ (50 < cv → choose_design_type cv t_half = "4-way replicate")) := by
  intro cv t_half
  constructor
  · rintro t rfl h336
    simp only [choose_design_type]
    rw [if_pos (show (24.0 * 7.0 * 2.0 : ℝ) ≤ t by linarith)]
  · intro hlt
    have hbranch : choose_design_type cv t_half = cv_design_branch cv := by
      cases t_half with
      | none => rfl
      | some t =>
        simp only [choose_design_type]
        rw [if_neg (not_le.mpr (show t < 24.0 * 7.0 * 2.0 by
          have := hlt t rfl
          linarith))]
    rw [hbranch]
    refine ⟨?_, ?_, ?_⟩
    · intro h30
      simp only [cv_design_branch]
      split_ifs with h1 h2
      · rfl
      · exfalso; linarith
      · exfalso; linarith
    · intro h30 h50
      simp only [cv_design_branch]
      split_ifs with h1 h2
      · exfalso; linarith
      · rfl
      · exact absurd ⟨by linarith, by linarith⟩ h2
    · intro h50
      simp only [cv_design_branch]
      split_ifs with h1 h2
      · exfalso; linarith
      · exfalso; linarith [h2.2]
      · rfl

/-- C2 witness: the theorem applied at a long half-life and at each CV band. -/
theorem C2_choose_design_type_witness :
    choose_design_type 20 (some 400) = "Параллельный"
    ∧ choose_design_type 20 Option.none = "2x2 crossover"
    ∧ choose_design_type 40 Option.none = "3-way replicate"
    ∧ choose_design_type 60 Option.none = "4-way replicate" :=
  ⟨(C2_choose_design_type 20 (some 400)).1 400 rfl (by norm_num),
   ((C2_choose_design_type 20 Option.none).2
      (fun t h => Option.noConfusion h)).1 (by norm_num),
   (((C2_choose_design_type 40 Option.none).2
      (fun t h => Option.noConfusion h)).2).1 (by norm_num) (by norm_num),
   (((C2_choose_design_type 60 Option.none).2
      (fun t h => Option.noConfusion h)).2).2 (by norm_num)⟩

/-- Every branch of the design dispatch yields a nonnegative factor. -/
theorem se_factor_of_nonneg (d : String) : 0 ≤ se_factor_of d := by
  simp only [se_factor_of]
  split_ifs <;> norm_num

/-- C1: for every `cv_intra ≥ 0` and design string, the generalized sample
size calculation returns the caller's design string unchanged together with
the documented formula value: `se_factor` is 1/2 for the crossover match
(and for any string no branch matches), 1/3 and 1/4 for the replicate
matches, 1 for the parallel match (Latin or Cyrillic); the result is
`ceil(n_raw)` for `se_factor = 1` and the next even integer above `n_raw/2`
pairs otherwise, floored at 12 — hence always ≥ 12 and even whenever
`se_factor ≠ 1`. -/
theorem C1_sample_size_for_design :
    ∀ (cv : ℝ) (d : String), 0 ≤ cv →
      (calculate_sample_size_for_design cv d 0.80 0.05 0.80 1.25).2 = d
      ∧ (calculate_sample_size_for_design cv d 0.80 0.05 0.80 1.25).1
          = spec_sample_size_formula cv (se_factor_of d)
      ∧ se_factor_of "2x2 crossover" = 1 / 2
      ∧ se_factor_of "3-way replicate" = 1 / 3
      ∧ se_factor_of "4-way replicate" = 1 / 4
      ∧ se_factor_of "parallel" = 1
      ∧ se_factor_of "Параллельный" = 1
      ∧ (∀ d2, matches_crossover (pyLowerStr d2) = false →
           matches_3way (pyLowerStr d2) = false →
           matches_4way (pyLowerStr d2) = false →
           matches_parallel (pyLowerStr d2) = false →
           se_factor_of d2 = 1 / 2)
      ∧ 12 ≤ (calculate_sample_size_for_design cv d 0.80 0.05 0.80 1.25).1
      ∧ (se_factor_of d ≠ 1 →
          Even (calculate_sample_size_for_design cv d 0.80 0.05 0.80 1.25).1) := by
  intro cv d hcv
  refine ⟨rfl, ?_, ?_, ?_, ?_, ?_, ?_, ?_, ?_, ?_⟩
  · simp only [calculate_sample_size_for_design, spec_sample_size_formula, ite_self]
    congr 1
    split_ifs with hse
    · congr 1
      ring
    · congr 2
      ring
  · simp only [se_factor_of]
    rw [show matches_crossover (pyLowerStr "2x2 crossover") = true from by decide]
    simp
  · simp only [se_factor_of]
    rw [show matches_crossover (pyLowerStr "3-way replicate") = false from by decide,
      show matches_3way (pyLowerStr "3-way replicate") = true from by decide]
    simp
  · simp only [se_factor_of]
    rw [show matches_crossover (pyLowerStr "4-way replicate") = false from by decide,
      show matches_3way (pyLowerStr "4-way replicate") = false from by decide,
      show matches_4way (pyLowerStr "4-way replicate") = true from by decide]
    simp
  · simp only [se_factor_of]
    rw [show matches_crossover (pyLowerStr "parallel") = false from by decide,
      show matches_3way (pyLowerStr "parallel") = false from by decide,
      show matches_4way (pyLowerStr "parallel") = false from by decide,
      show matches_parallel (pyLowerStr "parallel") = true from by decide]
    simp
  · simp only [se_factor_of]
    rw [show matches_crossover (pyLowerStr "Параллельный") = false from by decide,
      show matches_3way (pyLowerStr "Параллельный") = false from by decide,
      show matches_4way (pyLowerStr "Параллельный") = false from by decide,
      show matches_parallel (pyLowerStr "Параллельный") = true from by decide]
    simp
  · intro d2 h1 h2 h3 h4
    simp only [se_factor_of]
    rw [h1, h2, h3, h4]
    simp
  · simp only [calculate_sample_size_for_design]
    exact le_max_right _ _
  · intro hse
    simp only [calculate_sample_size_for_design, ite_self]
    rw [if_neg hse]
    rcases max_choice
        (⌈2 * ((1.96 + 0.84) / Real.log (1.25 / 0.80)) ^ 2 *
            (Real.log ((cv / 100) ^ 2 + 1) * se_factor_of d) / 2⌉ * 2) (12 : ℤ) with h | h <;>
      rw [h]
    · exact ⟨_, by ring⟩
    · exact ⟨6, by norm_num⟩

/-- C1 witness: the theorem applied at `cv = 20` with the crossover design. -/
theorem C1_sample_size_witness :
    (calculate_sample_size_for_design 20 "2x2 crossover" 0.80 0.05 0.80 1.25).2
      = "2x2 crossover"
    ∧ se_factor_of "parallel" = 1 :=
  ⟨(C1_sample_size_for_design 20 "2x2 crossover" (by norm_num)).1,
   (C1_sample_size_for_design 20 "2x2 crossover" (by norm_num)).2.2.2.2.2.1⟩

/-- C9: for a fixed design string, the computed sample size is monotone in
`cv_intra` on `cv_intra ≥ 0`. -/
theorem C9_sample_size_monotone :
    ∀ (d : String) (cv1 cv2 : ℝ), 0 ≤ cv1 → cv1 ≤ cv2 →
      (calculate_sample_size_for_design cv1 d 0.80 0.05 0.80 1.25).1
        ≤ (calculate_sample_size_for_design cv2 d 0.80 0.05 0.80 1.25).1 := by
  intro d cv1 cv2 h0 h12
  have hse : 0 ≤ se_factor_of d := se_factor_of_nonneg d
  have hlog : Real.log ((cv1 / 100) ^ 2 + 1) ≤ Real.log ((cv2 / 100) ^ 2 + 1) := by
    apply Real.log_le_log (by positivity)
    have hsq : (cv1 / 100) ^ 2 ≤ (cv2 / 100) ^ 2 :=
      pow_le_pow_left₀ (by positivity) (by linarith) 2
    linarith
  have hK : (0 : ℝ) ≤ 2 * ((1.96 + 0.84) / Real.log (1.25 / 0.80)) ^ 2 := by positivity
  have hA : 2 * ((1.96 + 0.84) / Real.log (1.25 / 0.80)) ^ 2 *
      (Real.log ((cv1 / 100) ^ 2 + 1) * se_factor_of d)
      ≤ 2 * ((1.96 + 0.84) / Real.log (1.25 / 0.80)) ^ 2 *
      (Real.log ((cv2 / 100) ^ 2 + 1) * se_factor_of d) :=
    mul_le_mul_of_nonneg_left (mul_le_mul_of_nonneg_right hlog hse) hK
  simp only [calculate_sample_size_for_design, ite_self]
  apply max_le_max _ le_rfl
  split_ifs with hp
  · exact Int.ceil_mono hA
  · exact mul_le_mul_of_nonneg_right (Int.ceil_mono (by linarith)) (by norm_num)

/-- C9 witness: the theorem applied at `cv1 = 0 ≤ cv2 = 50` for the
crossover design. -/
theorem C9_sample_size_monotone_witness :
    (calculate_sample_size_for_design 0 "2x2 crossover" 0.80 0.05 0.80 1.25).1
      ≤ (calculate_sample_size_for_design 50 "2x2 crossover" 0.80 0.05 0.80 1.25).1 :=
  C9_sample_size_monotone "2x2 crossover" 0 50 le_rfl (by norm_num)
